import Mathlib

/-!
Verification of the greeting-kafka-operator reconciliation controller.

The development shallowly embeds the Rust sources:
  * `src/kafka_topic_controller.rs` — the `KafkaTopic` custom resource,
    `determine_action`, `reconcile`, `on_error`, and the finalizer patches
    built by `add_finalizer` / `delete_finalizer`;
  * `src/kafka_topic_helper.rs` — the admin-client adapter
    (`create_topic`, `delete_topic`, `topic_exists`);
  * `src/main.rs` — construction of the admin-client configuration.

Asynchronous port calls are embedded by passing their outcomes in
explicitly (`PortOutcomes`) and recording the calls `reconcile` issues as
a trace (`List PortCall`), so sequencing claims become statements about
the trace.
-/

namespace KafkaOperator

/-- `KafkaTopicSpec` from `kafka_topic_controller.rs`: the desired topic
state declared by the user. -/
structure KafkaTopicSpec where
  bootstrap_server : String
  topic : String
  partitions : Int
  replication_factor : Int
  deriving Repr, DecidableEq

/-- The slice of Kubernetes `ObjectMeta` the controller reads and writes:
name, namespace (`ns`, since `namespace` is reserved in Lean), deletion
timestamp and the finalizer list.  Each field is optional, as in the
Kubernetes object model. -/
structure ObjectMeta where
  name : Option String
  ns : Option String
  deletion_timestamp : Option String
  finalizers : Option (List String)
  deriving Repr, DecidableEq

/-- The `KafkaTopic` custom resource: metadata plus spec. -/
structure KafkaTopic where
  metadata : ObjectMeta
  spec : KafkaTopicSpec
  deriving Repr, DecidableEq

/-- `ResourceExt::name_any()`: the metadata name, defaulting to the empty
string when absent. -/
def name_any (kt : KafkaTopic) : String :=
  kt.metadata.name.getD ""

/-- `kt.namespace()`: the optional namespace from metadata. -/
def namespace_of (kt : KafkaTopic) : Option String :=
  kt.metadata.ns

/-- The `KafkaTopicAction` enum of `kafka_topic_controller.rs`. -/
inductive KafkaTopicAction where
  | Create
  | Delete
  | NoOp
  deriving Repr, DecidableEq

/-- `determine_action` from `kafka_topic_controller.rs`:
`Delete` when `deletion_timestamp` is set, otherwise `Create` when the
finalizer list is absent or empty (`map_or(true, is_empty)`), otherwise
`NoOp`. -/
def determine_action (kafka_topic : KafkaTopic) : KafkaTopicAction :=
  if kafka_topic.metadata.deletion_timestamp.isSome then
    KafkaTopicAction.Delete
  else if (kafka_topic.metadata.finalizers.map List.isEmpty).getD true then
    KafkaTopicAction.Create
  else
    KafkaTopicAction.NoOp

/-- The spec's `deletionRequested` bit: whether `deletion_timestamp` is set. -/
def deletionRequested (kt : KafkaTopic) : Bool :=
  kt.metadata.deletion_timestamp.isSome

/-- The spec's `guardPresent` bit: whether the finalizer list is present and
non-empty. -/
def guardPresent (kt : KafkaTopic) : Bool :=
  !((kt.metadata.finalizers.map List.isEmpty).getD true)

/-- The classification table of spec section 4.1, written from the spec's
words for comparison with `determine_action`: `(false,false) ↦ Create`,
`(false,true) ↦ NoOp`, `(true,_) ↦ Delete`. -/
def specClassifyTable (deletionReq guardPres : Bool) : KafkaTopicAction :=
  if deletionReq then KafkaTopicAction.Delete
  else if guardPres then KafkaTopicAction.NoOp
  else KafkaTopicAction.Create

/-- The controller's `Error` enum: a wrapped `kube::Error` (carried here as
its message) or a user-input error. -/
inductive Error where
  | KubeError (source : String)
  | UserInputError (msg : String)
  deriving Repr, DecidableEq

/-- `kube::runtime::controller::Action`: requeue after the given number of
seconds, or await the next change. -/
inductive Action where
  | requeue (secs : Nat)
  | await_change
  deriving Repr, DecidableEq

/-- One outbound port call issued by `reconcile`: a Lifecycle Guard call
(`add_finalizer` / `delete_finalizer` on the Kubernetes client) or a Topic
Provisioner call (`create_topic` / `delete_topic` on the Kafka client). -/
inductive PortCall where
  | attachGuard (name ns : String)
  | releaseGuard (name ns : String)
  | createTopic (topic : String)
  | deleteTopic (topic : String)
  deriving Repr, DecidableEq

/-- Whether a port call is a Topic Provisioner `create` call. -/
def PortCall.isCreateTopic : PortCall → Bool
  | PortCall.createTopic _ => true
  | _ => false

/-- Whether a port call is a Lifecycle Guard release (`delete_finalizer`). -/
def PortCall.isReleaseGuard : PortCall → Bool
  | PortCall.releaseGuard _ _ => true
  | _ => false

/-- Whether a port call touches the Lifecycle Guard or Topic Provisioner at
all (every constructor does; used to state "zero calls to either port"). -/
def PortCall.isPortCall : PortCall → Bool
  | _ => true

/-- The outcomes the environment returns for each awaited port call in one
reconciliation pass: `Except.error s` embeds a `kube::Error` with message
`s`, `Except.ok ()` a success.  The successful `KafkaTopic` value returned
by the finalizer patches is dropped by `reconcile` in the source, so `Unit`
suffices. -/
structure PortOutcomes where
  addFinalizer : Except String Unit
  deleteFinalizer : Except String Unit
  createTopic : Except String Unit
  deleteTopic : Except String Unit
  deriving Repr

/-- `reconcile` from `kafka_topic_controller.rs`, embedded as a function of
the resource and the port-call outcomes, returning the result together with
the trace of port calls issued, in order.  The source: reject a missing
namespace with `UserInputError`; then dispatch on `determine_action`:
Create = `add_finalizer` then (on its success) `create_topic` then
`Requeue(10s)`; Delete = `delete_topic` then (on its success)
`delete_finalizer` then `await_change`; NoOp = `Requeue(10s)` with no
calls.  Each `?` propagates the failure, converting `kube::Error` to
`Error::KubeError`. -/
def reconcile (kafka_topic : KafkaTopic) (ports : PortOutcomes) :
    Except Error Action × List PortCall :=
  match namespace_of kafka_topic with
  | none =>
      (Except.error (Error.UserInputError
        "Expected Echo resource to be namespaced. Cannot deploy to an unknown namespace."),
       [])
  | some ns =>
      let name := name_any kafka_topic
      match determine_action kafka_topic with
      | KafkaTopicAction.Create =>
          match ports.addFinalizer with
          | Except.error e =>
              (Except.error (Error.KubeError e), [PortCall.attachGuard name ns])
          | Except.ok _ =>
              match ports.createTopic with
              | Except.error e =>
                  (Except.error (Error.KubeError e),
                   [PortCall.attachGuard name ns,
                    PortCall.createTopic kafka_topic.spec.topic])
              | Except.ok _ =>
                  (Except.ok (Action.requeue 10),
                   [PortCall.attachGuard name ns,
                    PortCall.createTopic kafka_topic.spec.topic])
      | KafkaTopicAction.Delete =>
          match ports.deleteTopic with
          | Except.error e =>
              (Except.error (Error.KubeError e),
               [PortCall.deleteTopic kafka_topic.spec.topic])
          | Except.ok _ =>
              match ports.deleteFinalizer with
              | Except.error e =>
                  (Except.error (Error.KubeError e),
                   [PortCall.deleteTopic kafka_topic.spec.topic,
                    PortCall.releaseGuard name ns])
              | Except.ok _ =>
                  (Except.ok Action.await_change,
                   [PortCall.deleteTopic kafka_topic.spec.topic,
                    PortCall.releaseGuard name ns])
      | KafkaTopicAction.NoOp =>
          (Except.ok (Action.requeue 10), [])

/-- `on_error` from `kafka_topic_controller.rs`: logs (effect-free here)
and requeues after five seconds, for every resource and every error. -/
def on_error (_echo : KafkaTopic) (_error : Error) : Action :=
  Action.requeue 5

/-- One per-topic result inside a successful admin response, as in
rdkafka's `TopicResult`: either the created/deleted topic's name, or the
topic's name paired with the backend's error description. -/
inductive TopicResult where
  | ok (topic : String)
  | err (topic : String) (errMsg : String)
  deriving Repr, DecidableEq

/-- The outcome of an admin operation (`create_topics` / `delete_topics`):
an operation-level error, or a list of per-topic results. -/
def AdminResponse : Type := Except String (List TopicResult)

/-- `create_topic` from `kafka_topic_helper.rs`, as a function of the
admin response the backend produces for the pass.  The source matches on
the awaited response, logs each per-topic outcome (success or failure) and
the operation-level error, and then falls through to `Ok(())`: no branch
returns an error. -/
def create_topic (_kafka_topic : KafkaTopic) (response : AdminResponse) :
    Except String Unit :=
  match response with
  | Except.ok _results => Except.ok ()
  | Except.error _e => Except.ok ()

/-- `delete_topic` from `kafka_topic_helper.rs`: same shape as
`create_topic` — every per-topic failure and operation-level error is only
logged, and the function returns `Ok(())` unconditionally. -/
def delete_topic (_kafka_topic : KafkaTopic) (response : AdminResponse) :
    Except String Unit :=
  match response with
  | Except.ok _results => Except.ok ()
  | Except.error _e => Except.ok ()

/-- `topic_exists` from `kafka_topic_helper.rs`, as a function of the
metadata fetch's outcome (an error, or the list of topic names the backend
reports).  On a successful fetch it reports whether the spec's topic name
occurs; on a fetch error it logs and returns `Ok(false)`. -/
def topic_exists (kafka_topic : KafkaTopic)
    (fetch : Except String (List String)) : Except String Bool :=
  match fetch with
  | Except.ok topics =>
      if topics.any (fun t => t == kafka_topic.spec.topic) then
        Except.ok true
      else
        Except.ok false
  | Except.error _e => Except.ok false

/-- The merge-patch body the guard operations send for the
`metadata.finalizers` member: a concrete list value, or JSON `null`. -/
inductive FinalizerPatch where
  | setList (fs : List String)
  | null
  deriving Repr, DecidableEq

/-- The finalizer marker string hard-coded in `add_finalizer`. -/
def finalizerMarker : String := "arnecdn.github.com/finalizer"

/-- The patch body built by `add_finalizer` in
`kafka_topic_controller.rs`: `{"metadata": {"finalizers":
["arnecdn.github.com/finalizer"]}}`. -/
def add_finalizer_patch : FinalizerPatch :=
  FinalizerPatch.setList [finalizerMarker]

/-- The patch body built by `delete_finalizer` in
`kafka_topic_controller.rs`: `{"metadata": {"finalizers": null}}`. -/
def delete_finalizer_patch : FinalizerPatch :=
  FinalizerPatch.null

/-- Modelled from the spec: the declarative store applies the guard
operations with "merge-patch semantics" (spec sections 4.2 and 6); the
store itself is an external collaborator absent from `src/`.  Under JSON
merge patch (RFC 7386) a list value replaces the member wholesale and
`null` removes it, so this is the resulting finalizer list of the
resource. -/
def applyMergePatch (_finalizers : Option (List String))
    (patch : FinalizerPatch) : Option (List String) :=
  match patch with
  | FinalizerPatch.setList fs => some fs
  | FinalizerPatch.null => none

/-- The admin-client configuration built in `main.rs`: a single
`bootstrap.servers` entry taken from the `APP__KAFKA__BROKER` environment
value.  `envBroker` is that externally supplied value; the resource spec
plays no part in the construction. -/
def adminClientConfig (envBroker : String) : List (String × String) :=
  [("bootstrap.servers", envBroker)]

/-- The broker address the admin connection of a pass uses, as a function
of the environment value and the spec of the reconciled resource: `main.rs`
configures the shared admin client once from the environment, and
`create_topic` / `delete_topic` in `kafka_topic_helper.rs` use that client
without reading `spec.bootstrap_server`. -/
def connectionBroker (envBroker : String) (_spec : KafkaTopicSpec) : String :=
  envBroker

/-- A concrete spec, mirroring the unit test in
`kafka_topic_controller.rs` but with a bootstrap server distinct from the
environment value. -/
def specEx : KafkaTopicSpec :=
  { bootstrap_server := "spec-broker:9092"
    topic := "test-topic"
    partitions := 3
    replication_factor := 1 }

/-- A freshly created resource: namespaced, no deletion timestamp, no
finalizers (the Create precondition). -/
def ktCreate : KafkaTopic :=
  { metadata := { name := some "test-topic", ns := some "default",
                  deletion_timestamp := none, finalizers := none }
    spec := specEx }

/-- A resource marked for deletion with the guard attached. -/
def ktDelete : KafkaTopic :=
  { metadata := { name := some "test-topic", ns := some "default",
                  deletion_timestamp := some "2025-01-01T00:00:00Z",
                  finalizers := some ["arnecdn.github.com/finalizer"] }
    spec := specEx }

/-- A resource without a namespace. -/
def ktNoNs : KafkaTopic :=
  { metadata := { name := some "test-topic", ns := none,
                  deletion_timestamp := none, finalizers := none }
    spec := specEx }

/-- Port outcomes in which every call succeeds. -/
def portsAllOk : PortOutcomes :=
  { addFinalizer := Except.ok (), deleteFinalizer := Except.ok ()
    createTopic := Except.ok (), deleteTopic := Except.ok () }

/-- Port outcomes in which the guard attach fails. -/
def portsAttachFail : PortOutcomes :=
  { addFinalizer := Except.error "conflict", deleteFinalizer := Except.ok ()
    createTopic := Except.ok (), deleteTopic := Except.ok () }

/-- Port outcomes in which the topic delete fails. -/
def portsDeleteFail : PortOutcomes :=
  { addFinalizer := Except.ok (), deleteFinalizer := Except.ok ()
    createTopic := Except.ok (), deleteTopic := Except.error "timeout" }

/-- Claim C1: `determine_action` is a pure, deterministic function of the
pair `(deletionRequested, guardPresent)` — it factors through the
section-4.1 table — and that table sends `(false,false)` to Create,
`(false,true)` to NoOp, and both `(true,true)` and `(true,false)` to
Delete. -/
theorem determine_action_matches_table (kt : KafkaTopic) :
    determine_action kt
        = specClassifyTable (deletionRequested kt) (guardPresent kt)
    ∧ specClassifyTable false false = KafkaTopicAction.Create
    ∧ specClassifyTable false true = KafkaTopicAction.NoOp
    ∧ specClassifyTable true true = KafkaTopicAction.Delete
    ∧ specClassifyTable true false = KafkaTopicAction.Delete := by
  refine ⟨?_, rfl, rfl, rfl, rfl⟩
  unfold determine_action specClassifyTable deletionRequested guardPresent
  cases kt.metadata.deletion_timestamp with
  | none =>
      cases kt.metadata.finalizers with
      | none => simp
      | some fs => cases h : fs.isEmpty <;> simp [h]
  | some ts => simp

/-- Claim C2: in a Create pass (`deletionRequested = false`,
`guardPresent = false`, namespace present), when `attachGuard` fails the
pass ends with that `KubeError` and the trace holds no `createTopic`
call; when `attachGuard` succeeds the trace is exactly `attachGuard`
followed by `createTopic`, so `create` is invoked only after the guard
attach has returned success. -/
theorem create_pass_guard_before_create (kt : KafkaTopic)
    (ports : PortOutcomes) (ns : String)
    (hns : namespace_of kt = some ns)
    (hdel : deletionRequested kt = false)
    (hguard : guardPresent kt = false) :
    (∀ e, ports.addFinalizer = Except.error e →
       (reconcile kt ports).1 = Except.error (Error.KubeError e)
       ∧ ∀ c ∈ (reconcile kt ports).2, c.isCreateTopic = false)
    ∧ (ports.addFinalizer = Except.ok () →
       (reconcile kt ports).2
         = [PortCall.attachGuard (name_any kt) ns,
            PortCall.createTopic kt.spec.topic]) := by
  have hnone : kt.metadata.deletion_timestamp = none := by
    unfold deletionRequested at hdel
    cases h : kt.metadata.deletion_timestamp with
    | none => rfl
    | some ts => rw [h] at hdel; simp at hdel
  have hempty : (kt.metadata.finalizers.map List.isEmpty).getD true = true := by
    unfold guardPresent at hguard
    simpa using hguard
  have hact : determine_action kt = KafkaTopicAction.Create := by
    unfold determine_action
    rw [hnone, hempty]
    simp
  unfold reconcile
  rw [hns, hact]
  constructor
  · intro e he
    rw [he]
    constructor
    · rfl
    · intro c hc
      simp at hc
      rw [hc]
      rfl
  · intro hok
    rw [hok]
    cases hct : ports.createTopic <;> rfl

/-- Claim C2 witness: on the concrete fresh resource, a successful attach
yields the trace `attachGuard` then `createTopic`, and a failed attach
surfaces the `KubeError`. -/
theorem create_pass_guard_before_create_witness :
    (reconcile ktCreate portsAllOk).2
      = [PortCall.attachGuard "test-topic" "default",
         PortCall.createTopic "test-topic"]
    ∧ (reconcile ktCreate portsAttachFail).1
      = Except.error (Error.KubeError "conflict") :=
  ⟨(create_pass_guard_before_create ktCreate portsAllOk "default"
      rfl rfl rfl).2 rfl,
   ((create_pass_guard_before_create ktCreate portsAttachFail "default"
      rfl rfl rfl).1 "conflict" rfl).1⟩

/-- Claim C3: in a Delete pass (`deletionRequested = true`, namespace
present), when `delete_topic` fails the pass ends with that error and the
trace holds no `releaseGuard` call (the guard stays attached); when
`delete_topic` succeeds the trace is exactly `deleteTopic` followed by
`releaseGuard`, so the guard is released only after the delete has
returned success. -/
theorem delete_pass_delete_before_release (kt : KafkaTopic)
    (ports : PortOutcomes) (ns : String)
    (hns : namespace_of kt = some ns)
    (hdel : deletionRequested kt = true) :
    (∀ e, ports.deleteTopic = Except.error e →
       (reconcile kt ports).1 = Except.error (Error.KubeError e)
       ∧ ∀ c ∈ (reconcile kt ports).2, c.isReleaseGuard = false)
    ∧ (ports.deleteTopic = Except.ok () →
       (reconcile kt ports).2
         = [PortCall.deleteTopic kt.spec.topic,
            PortCall.releaseGuard (name_any kt) ns]) := by
  have hact : determine_action kt = KafkaTopicAction.Delete := by
    unfold determine_action
    unfold deletionRequested at hdel
    simp [hdel]
  unfold reconcile
  rw [hns, hact]
  constructor
  · intro e he
    rw [he]
    constructor
    · rfl
    · intro c hc
      simp at hc
      rw [hc]
      rfl
  · intro hok
    rw [hok]
    cases hdf : ports.deleteFinalizer <;> rfl

/-- Claim C3 witness: on the concrete deletion-marked resource, a
successful delete yields `deleteTopic` then `releaseGuard`, and a failed
delete surfaces the error with no release call in the trace. -/
theorem delete_pass_delete_before_release_witness :
    (reconcile ktDelete portsAllOk).2
      = [PortCall.deleteTopic "test-topic",
         PortCall.releaseGuard "test-topic" "default"]
    ∧ (reconcile ktDelete portsDeleteFail).1
      = Except.error (Error.KubeError "timeout") :=
  ⟨(delete_pass_delete_before_release ktDelete portsAllOk "default"
      rfl rfl).2 rfl,
   ((delete_pass_delete_before_release ktDelete portsDeleteFail "default"
      rfl rfl).1 "timeout" rfl).1⟩

/-- Claim C5: every successful pass classified Create or NoOp returns
`Requeue(10s)`, every successful Delete pass returns `AwaitNextChange`,
and `on_error` returns `Requeue(5s)` for every resource and error. -/
theorem reconcile_directives (kt : KafkaTopic) (ports : PortOutcomes) :
    (∀ a, (reconcile kt ports).1 = Except.ok a →
       ((determine_action kt = KafkaTopicAction.Create
           ∨ determine_action kt = KafkaTopicAction.NoOp)
          → a = Action.requeue 10)
       ∧ (determine_action kt = KafkaTopicAction.Delete
          → a = Action.await_change))
    ∧ (∀ e, on_error kt e = Action.requeue 5) := by
  refine ⟨?_, fun e => rfl⟩
  intro a ha
  unfold reconcile at ha
  cases hns : namespace_of kt with
  | none => rw [hns] at ha; exact absurd ha (by simp)
  | some ns =>
      rw [hns] at ha
      cases hact : determine_action kt with
      | Create =>
          rw [hact] at ha
          refine ⟨fun _ => ?_, fun hd => by cases hd⟩
          cases haf : ports.addFinalizer with
          | error e => rw [haf] at ha; cases ha
          | ok u =>
              rw [haf] at ha
              cases hct : ports.createTopic with
              | error e => rw [hct] at ha; cases ha
              | ok v => rw [hct] at ha; cases ha; rfl
      | Delete =>
          rw [hact] at ha
          refine ⟨fun hor => (by rcases hor with h | h <;> cases h), fun _ => ?_⟩
          cases hdt : ports.deleteTopic with
          | error e => rw [hdt] at ha; cases ha
          | ok u =>
              rw [hdt] at ha
              cases hdf : ports.deleteFinalizer with
              | error e => rw [hdf] at ha; cases ha
              | ok v => rw [hdf] at ha; cases ha; rfl
      | NoOp =>
          rw [hact] at ha
          cases ha
          exact ⟨fun _ => rfl, fun hd => by cases hd⟩

/-- Claim C5 witness: on the concrete resources with all ports
succeeding, the Create pass yields `Requeue(10s)`, the Delete pass yields
`AwaitNextChange`, and `on_error` yields `Requeue(5s)`. -/
theorem reconcile_directives_witness :
    Action.requeue 10 = Action.requeue 10
    ∧ Action.await_change = Action.await_change
    ∧ on_error ktCreate (Error.KubeError "boom") = Action.requeue 5 :=
  ⟨((reconcile_directives ktCreate portsAllOk).1 (Action.requeue 10) rfl).1
      (Or.inl rfl),
   ((reconcile_directives ktDelete portsAllOk).1 Action.await_change rfl).2
      rfl,
   (reconcile_directives ktCreate portsAllOk).2 (Error.KubeError "boom")⟩

/-- Claim C6: a `KafkaTopic` without a namespace makes `reconcile` fail
immediately with a `UserInputError`, and the trace of port calls is empty
— neither the Lifecycle Guard nor the Topic Provisioner is touched. -/
theorem reconcile_no_namespace (kt : KafkaTopic) (ports : PortOutcomes)
    (hns : namespace_of kt = none) :
    (∃ msg, (reconcile kt ports).1 = Except.error (Error.UserInputError msg))
    ∧ (reconcile kt ports).2 = [] := by
  unfold reconcile
  rw [hns]
  exact ⟨⟨_, rfl⟩, rfl⟩

/-- Claim C6 witness: the concrete namespace-less resource yields a
`UserInputError` and an empty call trace. -/
theorem reconcile_no_namespace_witness :
    (∃ msg, (reconcile ktNoNs portsAllOk).1
        = Except.error (Error.UserInputError msg))
    ∧ (reconcile ktNoNs portsAllOk).2 = [] :=
  reconcile_no_namespace ktNoNs portsAllOk rfl

/-- Claim C4 counterexample: on a backend rejection that is neither
"already exists" nor "not found" — an authorization failure on create, a
transport failure on delete — the adapter still returns `Ok(())`, not a
failure, so the pass does not surface any error. -/
theorem adapter_error_not_surfaced :
    create_topic ktCreate
        (Except.ok [TopicResult.err "test-topic" "TopicAuthorizationFailed"])
      = Except.ok ()
    ∧ delete_topic ktDelete (Except.error "BrokerTransportFailure")
      = Except.ok () :=
  ⟨rfl, rfl⟩

/-- Claim C4 amended: whenever the topic backend rejects a create or
delete admin operation — for any reason — `create_topic` and
`delete_topic` still return `Ok(())`; the rejection is only logged, so the
reconciliation pass treats it as success and no failure directive is
triggered. -/
theorem adapter_always_ok (kt : KafkaTopic) (response : AdminResponse) :
    create_topic kt response = Except.ok ()
    ∧ delete_topic kt response = Except.ok () :=
  ⟨by cases response <;> rfl, by cases response <;> rfl⟩

/-- Claim C7 counterexample: a resource carrying only another controller's
finalizer loses it under `add_finalizer`'s merge patch, which replaces the
whole list with the controller's single marker; and `delete_finalizer`'s
`null` patch clears the entire finalizer field, another controller's
marker included. -/
theorem finalizer_patch_clobbers :
    applyMergePatch (some ["other.io/guard"]) add_finalizer_patch
      = some [finalizerMarker]
    ∧ finalizerMarker ≠ "other.io/guard"
    ∧ applyMergePatch (some ["other.io/guard", finalizerMarker])
        delete_finalizer_patch = none := by
  refine ⟨rfl, ?_, rfl⟩
  decide

/-- Claim C7 amended: `add_finalizer` sets the resource's finalizer list
to exactly the controller's single marker and `delete_finalizer` clears
the whole finalizer field, whatever finalizers were present before: other
controllers' finalizers are overwritten or removed, not preserved. -/
theorem finalizer_patch_wholesale (fs : Option (List String)) :
    applyMergePatch fs add_finalizer_patch = some [finalizerMarker]
    ∧ applyMergePatch fs delete_finalizer_patch = none :=
  ⟨rfl, rfl⟩

/-- Claim C8 counterexample: with the environment broker and the spec's
`bootstrapServer` both set and distinct, the admin connection uses the
environment value, not the spec field — the spec field does not take
precedence. -/
theorem broker_ignores_spec_field :
    connectionBroker "env-broker:9092" specEx = "env-broker:9092"
    ∧ specEx.bootstrap_server = "spec-broker:9092"
    ∧ connectionBroker "env-broker:9092" specEx ≠ specEx.bootstrap_server := by
  refine ⟨rfl, rfl, ?_⟩
  decide

/-- Claim C8 amended: the broker address for the topic-backend admin
connection is always the externally supplied `APP__KAFKA__BROKER`
environment value, fixed once at startup; the spec's `bootstrapServer`
field is never consulted. -/
theorem broker_from_environment (envBroker : String) (spec : KafkaTopicSpec) :
    connectionBroker envBroker spec = envBroker
    ∧ adminClientConfig envBroker = [("bootstrap.servers", envBroker)] :=
  ⟨rfl, rfl⟩

/-- Claim C9: `topic_exists` never returns an error: on every fetch
outcome it returns `Ok` of some boolean, and on a failed metadata fetch it
returns `Ok(false)` — the same value as for a successful fetch reporting
no topics — so a backend failure is indistinguishable from the topic
being absent. -/
theorem topic_exists_never_errors (kt : KafkaTopic)
    (fetch : Except String (List String)) :
    (∃ b, topic_exists kt fetch = Except.ok b)
    ∧ (∀ e, topic_exists kt (Except.error e) = Except.ok false)
    ∧ (∀ e, topic_exists kt (Except.error e)
          = topic_exists kt (Except.ok [])) := by
  refine ⟨?_, fun e => rfl, fun e => rfl⟩
  cases fetch with
  | error e => exact ⟨false, rfl⟩
  | ok topics =>
      by_cases h : (topics.any fun t => t == kt.spec.topic) = true
      · exact ⟨true, by simp [topic_exists, h]⟩
      · exact ⟨false, by simp [topic_exists, h]⟩

/-- Claim C10: with no deletion requested, `determine_action` classifies a
present-but-empty finalizer list exactly like an absent one (Create), and
classifies any non-empty list — whatever markers it holds, the
controller's own or not — as guard present: NoOp without a deletion
timestamp, Delete with one. -/
theorem determine_action_finalizer_list (name ns : Option String)
    (spec : KafkaTopicSpec) (fs : List String) :
    determine_action ⟨⟨name, ns, none, none⟩, spec⟩ = KafkaTopicAction.Create
    ∧ determine_action ⟨⟨name, ns, none, some []⟩, spec⟩
        = KafkaTopicAction.Create
    ∧ (fs ≠ [] →
        determine_action ⟨⟨name, ns, none, some fs⟩, spec⟩
          = KafkaTopicAction.NoOp
        ∧ ∀ ts, determine_action ⟨⟨name, ns, some ts, some fs⟩, spec⟩
            = KafkaTopicAction.Delete) := by
  refine ⟨rfl, rfl, fun hfs => ⟨?_, fun ts => rfl⟩⟩
  unfold determine_action
  have h : fs.isEmpty = false := by
    cases fs with
    | nil => exact absurd rfl hfs
    | cons a as => rfl
  simp [h]

/-- Claim C10 witness: a finalizer list holding only another controller's
marker — not this controller's — is classified NoOp without a deletion
timestamp and Delete with one. -/
theorem determine_action_finalizer_list_witness :
    determine_action
        ⟨⟨some "test-topic", some "default", none, some ["other.io/guard"]⟩,
         specEx⟩ = KafkaTopicAction.NoOp
    ∧ determine_action
        ⟨⟨some "test-topic", some "default", some "2025-01-01T00:00:00Z",
          some ["other.io/guard"]⟩, specEx⟩ = KafkaTopicAction.Delete := by
  have h := (determine_action_finalizer_list (some "test-topic")
      (some "default") specEx ["other.io/guard"]).2.2 (by simp)
  exact ⟨h.1, h.2 "2025-01-01T00:00:00Z"⟩

end KafkaOperator
